import Mathlib

/-!
Shallow embedding of the Patch Promotion Engine of the repository
(`app/state.py`, `app/services/diff.py`, `app/services/synthetic_data.py`,
data model from `app/models.py`), together with theorems checking the
specification's claims about it.

Modelling conventions:
- SQLAlchemy ORM entities become plain structures; the vulnerability rows
  belonging to a snapshot are embedded as a list in the snapshot (mirroring
  the `vulnerabilities` relationship), and the database session becomes an
  explicit `Db` value holding the snapshot table plus the next primary key.
- Python's `random` module is modelled by an explicit stream of naturals
  (`Rng`); each primitive draw (`randint`, `choice`, `sample`) consumes
  seeds from the stream and every value in the documented range is reachable
  for some seed.  `random.sample(pop, k)` raising `ValueError` when
  `k > len(pop)` is modelled by returning `none`.
- Python floats are modelled by exact rationals; `int(x)` is truncation
  toward zero.
- A raised exception is modelled by an error value: `transition_patch_event`
  returns the (possibly updated) event together with `Option String`, the
  raised `ValueError` message, and `generate_after_snapshot` returns `none`
  when `random.sample` raises.
-/

/-- Severity enum from `app/models.py` (CRITICAL/HIGH/MEDIUM/LOW). -/
inductive Severity where
  | CRITICAL
  | HIGH
  | MEDIUM
  | LOW
deriving DecidableEq, Repr, Inhabited

/-- Iteration order of the `Severity` enum (Python iterates members in
declaration order). -/
def Severity.all : List Severity :=
  [Severity.CRITICAL, Severity.HIGH, Severity.MEDIUM, Severity.LOW]

/-- Environment enum from `app/models.py`. -/
inductive Environment where
  | DEV
  | STAGE
  | PROD
deriving DecidableEq, Repr, Inhabited

/-- String value of an `Environment` member (`str` enum). -/
def Environment.value : Environment → String
  | Environment.DEV => "DEV"
  | Environment.STAGE => "STAGE"
  | Environment.PROD => "PROD"

/-- SnapshotType enum from `app/models.py`. -/
inductive SnapshotType where
  | BEFORE
  | AFTER
deriving DecidableEq, Repr, Inhabited

/-- Vulnerability row from `app/models.py` (the surrogate integer primary
key is bookkeeping of the ORM and is omitted; `synthetic_id` is the
identity key the engine uses). -/
structure Vulnerability where
  scan_snapshot_id : Nat
  synthetic_id : String
  cve : Option String
  plugin_id : Option String
  severity : Severity
  host : String
  description : Option String
deriving DecidableEq, Repr, Inhabited

/-- ScanSnapshot row from `app/models.py`; the `vulnerabilities`
relationship is embedded as a list. -/
structure ScanSnapshot where
  id : Nat
  patch_event_id : Nat
  snapshot_type : SnapshotType
  vulnerabilities : List Vulnerability
deriving DecidableEq, Repr, Inhabited

/-- PatchEvent row from `app/models.py` (timestamp bookkeeping columns
omitted; `patch_date` kept abstract as a number). -/
structure PatchEvent where
  id : Nat
  service_id : Nat
  environment : Environment
  ami_id : String
  patch_date : Nat
  notes : Option String
  dev_evidence_available : Bool
  stage_cr_summary : Option String
  prod_cr_summary : Option String
  current_state_code : String
deriving DecidableEq, Repr, Inhabited

/-- The snapshot table of the database session, plus the next primary key
handed out by `db.flush()`. -/
structure Db where
  snapshots : List ScanSnapshot
  next_id : Nat
deriving DecidableEq, Repr, Inhabited

/-! State machine, from `app/state.py`. -/

def DEV_EVIDENCE_CAPTURED : String := "DEV_EVIDENCE_CAPTURED"

def DEV_VERIFIED : String := "DEV_VERIFIED"

def STAGE_CR_READY : String := "STAGE_CR_READY"

def STAGE_PATCHED : String := "STAGE_PATCHED"

def PROD_CR_READY : String := "PROD_CR_READY"

def PROD_PATCHED : String := "PROD_PATCHED"

def CLOSED : String := "CLOSED"

/-- The seven lifecycle states.  The source has one `PatchState` subclass
per state; the embedding uses one constructor per subclass. -/
inductive PatchState where
  | devEvidenceCaptured
  | devVerified
  | stageCrReady
  | stagePatched
  | prodCrReady
  | prodPatched
  | closed
deriving DecidableEq, Repr, Inhabited

/-- The `code` attribute set by each subclass constructor. -/
def PatchState.code : PatchState → String
  | PatchState.devEvidenceCaptured => DEV_EVIDENCE_CAPTURED
  | PatchState.devVerified => DEV_VERIFIED
  | PatchState.stageCrReady => STAGE_CR_READY
  | PatchState.stagePatched => STAGE_PATCHED
  | PatchState.prodCrReady => PROD_CR_READY
  | PatchState.prodPatched => PROD_PATCHED
  | PatchState.closed => CLOSED

/-- Function `_has_dev_evidence` of `app/state.py`. -/
def has_dev_evidence (context : PatchEvent) : Bool :=
  context.dev_evidence_available

/-- The `allowed_transitions` method of each `PatchState` subclass in
`app/state.py`, lines 44-112. -/
def allowed_transitions : PatchState → PatchEvent → List String
  | PatchState.devEvidenceCaptured, _ => [DEV_VERIFIED]
  | PatchState.devVerified, context =>
      if !(has_dev_evidence context) then [] else [STAGE_CR_READY]
  | PatchState.stageCrReady, context =>
      if !(has_dev_evidence context) then [] else [STAGE_PATCHED]
  | PatchState.stagePatched, context =>
      if !(has_dev_evidence context) then [] else [PROD_CR_READY]
  | PatchState.prodCrReady, context =>
      if !(has_dev_evidence context) then [] else [PROD_PATCHED]
  | PatchState.prodPatched, _ => [CLOSED]
  | PatchState.closed, _ => []

/-- Method `PatchState.can_transition_to` of `app/state.py`. -/
def can_transition_to (state : PatchState) (target_code : String)
    (context : PatchEvent) : Bool :=
  (allowed_transitions state context).contains target_code

/-- The `on_enter` hook of `app/state.py` (no behavior today). -/
def on_enter (_state : PatchState) (context : PatchEvent) : PatchEvent :=
  context

/-- Function `get_state_for_event` of `app/state.py`, lines 115-132:
Python's `event.current_state_code or DEV_EVIDENCE_CAPTURED` treats the
empty string as missing, and `mapping.get` falls back to the initial
state class on an unknown code. -/
def get_state_for_event (event : PatchEvent) : PatchState :=
  let state_code :=
    if event.current_state_code = "" then DEV_EVIDENCE_CAPTURED
    else event.current_state_code
  if state_code = DEV_EVIDENCE_CAPTURED then PatchState.devEvidenceCaptured
  else if state_code = DEV_VERIFIED then PatchState.devVerified
  else if state_code = STAGE_CR_READY then PatchState.stageCrReady
  else if state_code = STAGE_PATCHED then PatchState.stagePatched
  else if state_code = PROD_CR_READY then PatchState.prodCrReady
  else if state_code = PROD_PATCHED then PatchState.prodPatched
  else if state_code = CLOSED then PatchState.closed
  else PatchState.devEvidenceCaptured

/-- The message of the `ValueError` raised by the standalone close check. -/
def close_error_message : String :=
  "Cannot close patch event unless PROD is patched."

/-- The message of the `ValueError` raised when the per-state table rejects
the target. -/
def not_allowed_message (current : PatchState) (target_code : String) : String :=
  "Transition from " ++ current.code ++ " to " ++ target_code ++
    " is not allowed."

/-- Function `transition_patch_event` of `app/state.py`, lines 135-156.
The returned event models the (mutable) event after the call; the
`Option String` component is the raised `ValueError` message, `none` on
success. -/
def transition_patch_event (event : PatchEvent) (target_code : String) :
    PatchEvent × Option String :=
  let current_state := get_state_for_event event
  if target_code = CLOSED ∧ ¬ event.current_state_code = PROD_PATCHED then
    (event, some close_error_message)
  else if !(can_transition_to current_state target_code event) then
    (event, some (not_allowed_message current_state target_code))
  else
    (on_enter current_state { event with current_state_code := target_code },
      none)

/-- The chain of the seven lifecycle codes, in promotion order. -/
def STATE_CHAIN : List String :=
  [DEV_EVIDENCE_CAPTURED, DEV_VERIFIED, STAGE_CR_READY, STAGE_PATCHED,
    PROD_CR_READY, PROD_PATCHED, CLOSED]

/-- Whether a code is one of the seven lifecycle codes. -/
def is_lifecycle_code (code : String) : Bool :=
  decide (code ∈ STATE_CHAIN)

/-- Whether a code lies at or after STAGE_CR_READY (position 2) in the
chain. -/
def at_or_after_stage_cr_ready (code : String) : Bool :=
  match STATE_CHAIN.findIdx? (fun c => c == code) with
  | some i => decide (2 ≤ i)
  | none => false

/-- The allowed transitions the application computes for an event:
`get_state_for_event(event).allowed_transitions(event)`. -/
def allowed_transitions_for_event (event : PatchEvent) : List String :=
  allowed_transitions (get_state_for_event event) event

/-! Evidence diff engine, from `app/services/diff.py`. -/

/-- Function `compute_fixed_vulnerabilities` of `app/services/diff.py`,
lines 9-25: build the set of AFTER ids, then filter BEFORE by
non-membership (set membership is modelled by list membership of the
mapped id list). -/
def compute_fixed_vulnerabilities (before_vulnerabilities : List Vulnerability)
    (after_vulnerabilities : List Vulnerability) : List Vulnerability :=
  let after_ids := after_vulnerabilities.map (fun v => v.synthetic_id)
  before_vulnerabilities.filter (fun v => !(after_ids.contains v.synthetic_id))

/-- Spec-side definition of the fixed set, written from the words of the
specification: every BEFORE record whose synthetic_id does not occur among
the synthetic_ids of AFTER, kept in BEFORE order. -/
def fixed_records_spec (before_vulnerabilities : List Vulnerability)
    (after_vulnerabilities : List Vulnerability) : List Vulnerability :=
  before_vulnerabilities.filter (fun v =>
    decide (∀ a ∈ after_vulnerabilities, a.synthetic_id ≠ v.synthetic_id))

/-- Function `count_by_severity` of `app/services/diff.py`, lines 28-37:
a Counter over the severities, then a dict with one key per enum member
in enum order (modelled as an association list in that order). -/
def count_by_severity (vulnerabilities : List Vulnerability) :
    List (Severity × Nat) :=
  Severity.all.map (fun severity =>
    (severity, (vulnerabilities.map (fun v => v.severity)).count severity))

/-! Synthetic data generator, from `app/services/synthetic_data.py`. -/

/-- Explicit random source: the stream of draws the `random` module would
produce. -/
structure Rng where
  seeds : List Nat
deriving DecidableEq, Repr, Inhabited

/-- Next raw draw of the stream. -/
def Rng.head (g : Rng) : Nat :=
  g.seeds.headD 0

/-- The stream after one draw. -/
def Rng.tail (g : Rng) : Rng :=
  Rng.mk g.seeds.tail

/-- Model of `random.randint(lo, hi)`: one draw, mapped into the inclusive
range `[lo, hi]`; every value of the range is reached by some seed. -/
def randint (lo hi : Int) (g : Rng) : Int × Rng :=
  (lo + (g.head : Int) % (hi - lo + 1), g.tail)

/-- Model of `random.choice(choices)`: one draw picks an index. -/
def rand_choice (choices : List Severity) (g : Rng) : Severity × Rng :=
  (choices.getD (g.head % choices.length) Severity.LOW, g.tail)

/-- Recursive core of the `random.sample` model: draw one index into the
remaining pool, remove the picked element, recurse. -/
def sample_aux : List Vulnerability → Nat → Rng → List Vulnerability × Rng
  | _, 0, g => ([], g)
  | pool, k + 1, g =>
    let i := g.head % pool.length
    let picked := pool.getD i default
    let rest := sample_aux (pool.eraseIdx i) k g.tail
    (picked :: rest.1, rest.2)

/-- Model of `random.sample(pool, k)`: `k` distinct positions drawn without
replacement; raises `ValueError` (returns `none`) when the sample is larger
than the population. -/
def sample (pool : List Vulnerability) (k : Nat) (g : Rng) :
    Option (List Vulnerability × Rng) :=
  if pool.length < k then none else some (sample_aux pool k g)

/-- Model of Python `int(total * ratio)` on the exact rational value:
truncation toward zero. -/
def trunc_mul (total : Nat) (ratio : ℚ) : Int :=
  if 0 ≤ ratio then Int.floor ((total : ℚ) * ratio)
  else -Int.floor ((total : ℚ) * (-ratio))

/-- Python format `n:0Nd` (zero-pad a number to a width). -/
def zfill (width : Nat) (n : Nat) : String :=
  let s := toString n
  String.mk (List.replicate (width - s.length) '0') ++ s

/-- Function `_generate_synthetic_cve` of `app/services/synthetic_data.py`. -/
def generate_synthetic_cve (g : Rng) : String × Rng :=
  let year := randint 2090 2099 g
  let ident := randint 1000 99999 year.2
  ("CVE-" ++ toString year.1 ++ "-" ++ zfill 5 ident.1.toNat, ident.2)

/-- Function `_generate_synthetic_plugin_id` of
`app/services/synthetic_data.py`. -/
def generate_synthetic_plugin_id (g : Rng) : String × Rng :=
  let n := randint 10000 99999 g
  ("PLUG-" ++ toString n.1.toNat, n.2)

/-- Function `_generate_synthetic_host` of `app/services/synthetic_data.py`. -/
def generate_synthetic_host (environment : Environment) (g : Rng) :
    String × Rng :=
  let env_pfx := environment.value.toLower
  let index := randint 1 9 g
  (env_pfx ++ "-synthetic-" ++ zfill 2 index.1.toNat, index.2)

/-- Function `_choose_severity` of `app/services/synthetic_data.py`: a
biased pick from a fixed 8-element list. -/
def choose_severity (g : Rng) : Severity × Rng :=
  let choices : List Severity :=
    [Severity.CRITICAL, Severity.HIGH, Severity.HIGH, Severity.MEDIUM,
      Severity.MEDIUM, Severity.LOW, Severity.LOW, Severity.LOW]
  rand_choice choices g

/-- Function `_build_vulnerability` of `app/services/synthetic_data.py`.
The `environment` argument stands for
`snapshot.patch_event.environment`; `snapshot_id` is `snapshot.id`. -/
def build_vulnerability (snapshot_id : Nat) (environment : Environment)
    (index : Nat) (g : Rng) : Vulnerability × Rng :=
  let sev := choose_severity g
  let synthetic_id := "VULN-" ++ zfill 4 snapshot_id ++ "-" ++ zfill 4 index
  let cve := generate_synthetic_cve sev.2
  let plug := generate_synthetic_plugin_id cve.2
  let host := generate_synthetic_host environment plug.2
  ({ scan_snapshot_id := snapshot_id,
     synthetic_id := synthetic_id,
     cve := some cve.1,
     plugin_id := some plug.1,
     severity := sev.1,
     host := host.1,
     description :=
       some "Synthetic vulnerability used for demonstration only." },
    host.2)

/-- The `for index in range(1, count + 1)` loops of
`generate_before_snapshot` and the fallback branch of
`generate_after_snapshot`: build `count` vulnerabilities starting at
ordinal `index`. -/
def build_vulns (snapshot_id : Nat) (environment : Environment) :
    Nat → Nat → Rng → List Vulnerability × Rng
  | 0, _, g => ([], g)
  | count + 1, index, g =>
    let v := build_vulnerability snapshot_id environment index g
    let rest := build_vulns snapshot_id environment count (index + 1) v.2
    (v.1 :: rest.1, rest.2)

/-- Function `_delete_existing_snapshots` of
`app/services/synthetic_data.py`, lines 68-82: delete every snapshot of the
event with the given tag. -/
def delete_existing_snapshots (db : Db) (patch_event_id : Nat)
    (snapshot_type : SnapshotType) : Db :=
  { db with
    snapshots := db.snapshots.filter (fun s =>
      !(s.patch_event_id == patch_event_id
        && s.snapshot_type == snapshot_type)) }

/-- Function `generate_before_snapshot` of
`app/services/synthetic_data.py`, lines 85-110. -/
def generate_before_snapshot (db : Db) (patch_event : PatchEvent)
    (vulnerability_count : Nat) (g : Rng) : Db × ScanSnapshot × Rng :=
  let db1 := delete_existing_snapshots db patch_event.id SnapshotType.BEFORE
  let sid := db1.next_id
  let vulns := build_vulns sid patch_event.environment vulnerability_count 1 g
  let snapshot : ScanSnapshot :=
    { id := sid,
      patch_event_id := patch_event.id,
      snapshot_type := SnapshotType.BEFORE,
      vulnerabilities := vulns.1 }
  ({ snapshots := db1.snapshots ++ [snapshot], next_id := sid + 1 },
    snapshot, vulns.2)

/-- The `db.query(ScanSnapshot).filter(...).first()` lookup of the BEFORE
snapshot in `generate_after_snapshot`. -/
def find_before_snapshot (db : Db) (patch_event_id : Nat) :
    Option ScanSnapshot :=
  (db.snapshots.filter (fun s =>
    s.patch_event_id == patch_event_id
      && s.snapshot_type == SnapshotType.BEFORE)).head?

/-- The fallback branch of `generate_after_snapshot` (no BEFORE data): a
fresh 10-record synthetic AFTER snapshot. -/
def generate_fallback_after (db1 : Db) (patch_event : PatchEvent) (g : Rng) :
    Db × ScanSnapshot × Rng :=
  let fallback_count := 10
  let sid := db1.next_id
  let vulns := build_vulns sid patch_event.environment fallback_count 1 g
  let snapshot : ScanSnapshot :=
    { id := sid,
      patch_event_id := patch_event.id,
      snapshot_type := SnapshotType.AFTER,
      vulnerabilities := vulns.1 }
  ({ snapshots := db1.snapshots ++ [snapshot], next_id := sid + 1 },
    snapshot, vulns.2)

/-- The main branch of `generate_after_snapshot` (lines 155-185): clamp the
remaining-count bounds, draw the remaining count, sample that many BEFORE
records, copy them into the new AFTER snapshot. -/
def generate_after_from_before (db1 : Db) (patch_event : PatchEvent)
    (before_vulns : List Vulnerability) (min_remaining_ratio : ℚ)
    (max_remaining_ratio : ℚ) (g : Rng) : Option (Db × ScanSnapshot × Rng) :=
  let total := before_vulns.length
  let min_remaining : Int := max 1 (trunc_mul total min_remaining_ratio)
  let max_remaining : Int :=
    max min_remaining (trunc_mul total max_remaining_ratio)
  let remaining_count := (randint min_remaining max_remaining g).1
  let g1 := (randint min_remaining max_remaining g).2
  match sample before_vulns remaining_count.toNat g1 with
  | none => none
  | some res =>
    let remaining_vulns := res.1
    let g2 := res.2
    let sid := db1.next_id
    let after_vulns := remaining_vulns.map (fun before_vuln =>
      { scan_snapshot_id := sid,
        synthetic_id := before_vuln.synthetic_id,
        cve := before_vuln.cve,
        plugin_id := before_vuln.plugin_id,
        severity := before_vuln.severity,
        host := before_vuln.host,
        description := before_vuln.description })
    let snapshot : ScanSnapshot :=
      { id := sid,
        patch_event_id := patch_event.id,
        snapshot_type := SnapshotType.AFTER,
        vulnerabilities := after_vulns }
    some ({ snapshots := db1.snapshots ++ [snapshot], next_id := sid + 1 },
      snapshot, g2)

/-- Function `generate_after_snapshot` of `app/services/synthetic_data.py`,
lines 113-185; `none` models the `ValueError` raised by `random.sample`
when the drawn remaining count exceeds the BEFORE population. -/
def generate_after_snapshot (db : Db) (patch_event : PatchEvent)
    (min_remaining_ratio : ℚ) (max_remaining_ratio : ℚ) (g : Rng) :
    Option (Db × ScanSnapshot × Rng) :=
  let db1 := delete_existing_snapshots db patch_event.id SnapshotType.AFTER
  match find_before_snapshot db1 patch_event.id with
  | none => some (generate_fallback_after db1 patch_event g)
  | some before_snapshot =>
    if before_snapshot.vulnerabilities.isEmpty then
      some (generate_fallback_after db1 patch_event g)
    else
      generate_after_from_before db1 patch_event
        before_snapshot.vulnerabilities min_remaining_ratio
        max_remaining_ratio g

/-! Concrete sample values used by counterexamples and witnesses. -/

/-- A concrete PatchEvent in state PROD_PATCHED with the evidence flag
false. -/
def ex_event_no_evidence : PatchEvent :=
  { id := 1, service_id := 1, environment := Environment.PROD,
    ami_id := "ami-0001", patch_date := 0, notes := none,
    dev_evidence_available := false, stage_cr_summary := none,
    prod_cr_summary := none, current_state_code := "PROD_PATCHED" }

/-- A concrete PatchEvent in state DEV_VERIFIED with the evidence flag
false. -/
def ex_event_dev_verified : PatchEvent :=
  { ex_event_no_evidence with current_state_code := "DEV_VERIFIED" }

/-- A concrete PatchEvent whose stored state code is not a lifecycle
code. -/
def ex_event_unknown_code : PatchEvent :=
  { ex_event_no_evidence with current_state_code := "BOGUS_STATE" }

/-- A concrete PatchEvent in the terminal CLOSED state. -/
def ex_event_closed : PatchEvent :=
  { ex_event_no_evidence with current_state_code := "CLOSED" }

/-- A concrete vulnerability record. -/
def ex_vuln : Vulnerability :=
  { scan_snapshot_id := 1, synthetic_id := "VULN-0001-0001",
    cve := some "CVE-2095-12345", plugin_id := some "PLUG-54321",
    severity := Severity.LOW, host := "dev-synthetic-01",
    description := none }

/-- C1 counterexample: in state PROD_PATCHED with the evidence flag false,
`allowed_transitions` still returns CLOSED, a state lying at/after
STAGE_CR_READY in the chain, so the guard is not applied there. -/
theorem c1_evidence_guard_counterexample :
    ex_event_no_evidence.dev_evidence_available = false ∧
    CLOSED ∈ allowed_transitions PatchState.prodPatched ex_event_no_evidence ∧
    at_or_after_stage_cr_ready CLOSED = true := by
  decide

/-- C1 (amended): with the evidence flag false, every state other than
PROD_PATCHED allows no transition whose target lies at or after
STAGE_CR_READY; PROD_PATCHED is the exception and returns exactly
CLOSED even without evidence. -/
theorem c1_evidence_guard_amended (e : PatchEvent)
    (hev : e.dev_evidence_available = false) :
    (∀ st : PatchState, st ≠ PatchState.prodPatched →
      ∀ t ∈ allowed_transitions st e, at_or_after_stage_cr_ready t = false) ∧
    allowed_transitions PatchState.prodPatched e = [CLOSED] := by
  refine ⟨?_, rfl⟩
  intro st hst t ht
  cases st <;>
    simp only [allowed_transitions, has_dev_evidence, hev, Bool.not_false,
      if_true, List.mem_singleton, List.not_mem_nil] at ht
  · subst ht; decide
  · cases hst rfl

/-- Witness for the amended C1 theorem at a concrete event. -/
theorem c1_evidence_guard_amended_witness :
    ex_event_no_evidence.dev_evidence_available = false ∧
    ((∀ st : PatchState, st ≠ PatchState.prodPatched →
      ∀ t ∈ allowed_transitions st ex_event_no_evidence,
        at_or_after_stage_cr_ready t = false) ∧
    allowed_transitions PatchState.prodPatched ex_event_no_evidence =
      [CLOSED]) :=
  ⟨rfl, c1_evidence_guard_amended ex_event_no_evidence rfl⟩

/-- C2: transitioning to CLOSED succeeds exactly from PROD_PATCHED; from
any other stored code it fails, and it fails with the standalone close
check's message, showing that check runs before the per-state table is
consulted. -/
theorem c2_close_only_from_prod_patched (e : PatchEvent) :
    (e.current_state_code = PROD_PATCHED →
      transition_patch_event e CLOSED =
        ({ e with current_state_code := CLOSED }, none)) ∧
    (e.current_state_code ≠ PROD_PATCHED →
      transition_patch_event e CLOSED = (e, some close_error_message)) := by
  constructor
  · intro h
    have hne : e.current_state_code ≠ "" := by
      rw [h]; decide
    simp [transition_patch_event, get_state_for_event, h, hne,
      PROD_PATCHED, DEV_EVIDENCE_CAPTURED, DEV_VERIFIED, STAGE_CR_READY,
      STAGE_PATCHED, PROD_CR_READY, CLOSED, can_transition_to,
      allowed_transitions, on_enter]
  · intro h
    have hcond : CLOSED = CLOSED ∧ ¬ e.current_state_code = PROD_PATCHED :=
      ⟨rfl, h⟩
    unfold transition_patch_event
    rw [if_pos hcond]

/-- Witness for C2 at two concrete events: closing succeeds from
PROD_PATCHED and fails (with the close-check message) from DEV_VERIFIED. -/
theorem c2_close_only_from_prod_patched_witness :
    (ex_event_no_evidence.current_state_code = PROD_PATCHED ∧
      transition_patch_event ex_event_no_evidence CLOSED =
        ({ ex_event_no_evidence with current_state_code := CLOSED }, none)) ∧
    (ex_event_dev_verified.current_state_code ≠ PROD_PATCHED ∧
      transition_patch_event ex_event_dev_verified CLOSED =
        (ex_event_dev_verified, some close_error_message)) :=
  ⟨⟨rfl, (c2_close_only_from_prod_patched ex_event_no_evidence).1 rfl⟩,
    ⟨by decide, (c2_close_only_from_prod_patched ex_event_dev_verified).2
      (by decide)⟩⟩

/-- C9: when the stored code is missing (empty) or not one of the seven
lifecycle codes, the state resolved for computing transitions is the
initial DEV_EVIDENCE_CAPTURED state and the allowed-transition set equals
that of an event in the initial state, while a close attempt still reads
the actual stored code and fails the standalone close check. -/
theorem c9_unknown_code_defaults (e : PatchEvent)
    (h : is_lifecycle_code e.current_state_code = false) :
    get_state_for_event e = PatchState.devEvidenceCaptured ∧
    allowed_transitions_for_event e =
      allowed_transitions_for_event
        { e with current_state_code := DEV_EVIDENCE_CAPTURED } ∧
    transition_patch_event e CLOSED = (e, some close_error_message) := by
  have hmem : e.current_state_code ∉ STATE_CHAIN := by
    rw [is_lifecycle_code, decide_eq_false_iff_not] at h
    exact h
  simp only [STATE_CHAIN, List.mem_cons, List.not_mem_nil, or_false,
    not_or] at hmem
  obtain ⟨h1, h2, h3, h4, h5, h6, h7⟩ := hmem
  have hstate : get_state_for_event e = PatchState.devEvidenceCaptured := by
    by_cases hemp : e.current_state_code = ""
    · simp [get_state_for_event, hemp]
    · simp [get_state_for_event, hemp, h1, h2, h3, h4, h5, h6, h7]
  refine ⟨hstate, ?_, ?_⟩
  · have hstate' : get_state_for_event
        { e with current_state_code := DEV_EVIDENCE_CAPTURED } =
        PatchState.devEvidenceCaptured := by
      simp [get_state_for_event, DEV_EVIDENCE_CAPTURED]
    simp [allowed_transitions_for_event, hstate, hstate', allowed_transitions]
  · have hcond : CLOSED = CLOSED ∧ ¬ e.current_state_code = PROD_PATCHED :=
      ⟨rfl, h6⟩
    unfold transition_patch_event
    rw [if_pos hcond]

/-- Witness for C9 at a concrete event with a bogus stored code. -/
theorem c9_unknown_code_defaults_witness :
    is_lifecycle_code ex_event_unknown_code.current_state_code = false ∧
    (get_state_for_event ex_event_unknown_code =
      PatchState.devEvidenceCaptured ∧
    allowed_transitions_for_event ex_event_unknown_code =
      allowed_transitions_for_event
        { ex_event_unknown_code with
          current_state_code := DEV_EVIDENCE_CAPTURED } ∧
    transition_patch_event ex_event_unknown_code CLOSED =
      (ex_event_unknown_code, some close_error_message)) :=
  ⟨by decide, c9_unknown_code_defaults ex_event_unknown_code (by decide)⟩

/-- C10: whenever a transition attempt fails (returns a raised message),
the event comes back unchanged; the state code is only written after both
guard checks pass. -/
theorem c10_failed_transition_leaves_event_unchanged (e : PatchEvent)
    (target_code : String) (msg : String)
    (h : (transition_patch_event e target_code).2 = some msg) :
    (transition_patch_event e target_code).1 = e := by
  by_cases h1 : target_code = CLOSED ∧ ¬ e.current_state_code = PROD_PATCHED
  · unfold transition_patch_event
    rw [if_pos h1]
  · by_cases h2 : can_transition_to (get_state_for_event e) target_code e
    · exfalso
      unfold transition_patch_event at h
      rw [if_neg h1] at h
      simp [h2] at h
    · unfold transition_patch_event
      rw [if_neg h1]
      simp [h2]

/-- Witness for C10: a rejected close attempt from the terminal CLOSED
state leaves the event untouched. -/
theorem c10_failed_transition_witness :
    (transition_patch_event ex_event_closed DEV_VERIFIED).2 =
      some (not_allowed_message PatchState.closed DEV_VERIFIED) ∧
    (transition_patch_event ex_event_closed DEV_VERIFIED).1 =
      ex_event_closed :=
  ⟨by decide,
    c10_failed_transition_leaves_event_unchanged ex_event_closed DEV_VERIFIED
      (not_allowed_message PatchState.closed DEV_VERIFIED) (by decide)⟩

/-- C3: the fixed list is exactly the BEFORE list filtered by absence of
the synthetic_id among the AFTER ids (the spec-side definition), and it is
a sublist of BEFORE, so the original relative order is kept. -/
theorem c3_compute_fixed_is_stable_filter
    (before after : List Vulnerability) :
    compute_fixed_vulnerabilities before after =
      fixed_records_spec before after ∧
    (compute_fixed_vulnerabilities before after).Sublist before := by
  constructor
  · unfold compute_fixed_vulnerabilities fixed_records_spec
    apply List.filter_congr
    intro v _
    rw [List.contains, List.elem_eq_mem, ← decide_not, decide_eq_decide]
    simp [List.mem_map, eq_comm]
  · exact List.filter_sublist _

/-- C7: count_by_severity always lists exactly the four severities, in
enum order, and the counts sum to the number of records. -/
theorem c7_count_by_severity_total (vulns : List Vulnerability) :
    (count_by_severity vulns).map Prod.fst = Severity.all ∧
    ((count_by_severity vulns).map Prod.snd).sum = vulns.length := by
  constructor
  · rfl
  · simp only [count_by_severity, Severity.all, List.map_cons, List.map_nil,
      List.sum_cons, List.sum_nil]
    induction vulns with
    | nil => simp
    | cons v t ih =>
      simp only [List.map_cons, List.count_cons, List.length_cons]
      cases hv : v.severity <;> simp <;> omega

/-- C8 counterexample: with a nonempty BEFORE and an empty AFTER the two
orders of arguments give different results, so swapping the inputs is NOT
harmless when (only) one side is empty. -/
theorem c8_symmetry_counterexample :
    compute_fixed_vulnerabilities [ex_vuln] [] ≠
      compute_fixed_vulnerabilities [] [ex_vuln] := by
  decide

/-- C8 (amended): compute_fixed_vulnerabilities is not symmetric in
general — swapping the arguments changes the result even when exactly one
side is empty — and symmetry does hold when both sides are empty. -/
theorem c8_asymmetry_amended :
    (∃ A B : List Vulnerability,
      compute_fixed_vulnerabilities A B ≠ compute_fixed_vulnerabilities B A) ∧
    ∀ A B : List Vulnerability, A = [] → B = [] →
      compute_fixed_vulnerabilities A B = compute_fixed_vulnerabilities B A := by
  refine ⟨⟨[ex_vuln], [], by decide⟩, ?_⟩
  rintro A B rfl rfl
  rfl

/-- Witness for the amended C8 theorem at the empty lists. -/
theorem c8_asymmetry_amended_witness :
    (([] : List Vulnerability) = []) ∧
    compute_fixed_vulnerabilities ([] : List Vulnerability) [] =
      compute_fixed_vulnerabilities ([] : List Vulnerability) [] :=
  ⟨rfl, c8_asymmetry_amended.2 [] [] rfl rfl⟩

/-! Helper lemmas about the generator primitives. -/

/-- A filter keeping nothing of what was just deleted: filtering by a
predicate after keeping exactly its complement yields nothing. -/
theorem filter_after_delete {α : Type} (p : α → Bool) (l : List α) :
    (l.filter (fun a => !(p a))).filter p = [] := by
  induction l with
  | nil => rfl
  | cons a t ih =>
    by_cases h : p a <;> simp [List.filter_cons, h, ih]

/-- The generation loop produces exactly the requested number of
vulnerabilities. -/
theorem build_vulns_length (sid : Nat) (env : Environment) :
    ∀ (count index : Nat) (g : Rng),
      (build_vulns sid env count index g).1.length = count := by
  intro count
  induction count with
  | zero => intro index g; rfl
  | succ n ih => intro index g; simp [build_vulns, ih]

/-- C5: after two successive generate_before_snapshot calls on the same
event, the database holds exactly one BEFORE snapshot for that event,
and it carries the second call's vulnerability count. -/
theorem c5_before_regeneration_replaces (db : Db) (e : PatchEvent)
    (n1 n2 : Nat) (g1 g2 : Rng) :
    (((generate_before_snapshot
          (generate_before_snapshot db e n1 g1).1 e n2 g2).1.snapshots.filter
        (fun s => s.patch_event_id == e.id
          && s.snapshot_type == SnapshotType.BEFORE)).map
      (fun s => s.vulnerabilities.length)) = [n2] := by
  simp only [generate_before_snapshot, delete_existing_snapshots]
  rw [List.filter_append, filter_after_delete]
  simp [build_vulns_length]

/-- The randint model lands in the inclusive range whenever the range is
nonempty. -/
theorem randint_bounds (lo hi : Int) (g : Rng) (h : lo ≤ hi) :
    lo ≤ (randint lo hi g).1 ∧ (randint lo hi g).1 ≤ hi := by
  have hm : 0 < hi - lo + 1 := by omega
  have h0 : 0 ≤ (g.head : Int) % (hi - lo + 1) :=
    Int.emod_nonneg _ (by omega)
  have h1 : (g.head : Int) % (hi - lo + 1) < hi - lo + 1 :=
    Int.emod_lt_of_pos _ hm
  unfold randint
  constructor <;> simp <;> omega

/-- Truncation toward zero of total times a ratio at most one never
exceeds the total. -/
theorem trunc_mul_le_of_le_one (total : Nat) (r : ℚ) (hr : r ≤ 1) :
    trunc_mul total r ≤ (total : Int) := by
  unfold trunc_mul
  split
  · calc ⌊(total : ℚ) * r⌋ ≤ ⌊(total : ℚ)⌋ := by
          apply Int.floor_le_floor
          exact mul_le_of_le_one_right (by positivity) hr
      _ = (total : Int) := Int.floor_natCast total
  · rename_i hneg
    have h0 : (0 : ℚ) ≤ (total : ℚ) * (-r) := by
      apply mul_nonneg (by positivity)
      linarith [not_le.mp hneg]
    have := Int.le_floor.mpr (by exact_mod_cast h0 :
      ((0 : Int) : ℚ) ≤ (total : ℚ) * (-r))
    omega

/-- The sample model succeeds exactly when the requested size fits the
population. -/
theorem sample_eq_some (pool : List Vulnerability) (k : Nat) (g : Rng)
    (h : ¬ pool.length < k) :
    sample pool k g = some (sample_aux pool k g) := by
  unfold sample
  rw [if_neg h]

/-- The sample core returns as many records as requested. -/
theorem sample_aux_length :
    ∀ (k : Nat) (pool : List Vulnerability) (g : Rng),
      (sample_aux pool k g).1.length = k := by
  intro k
  induction k with
  | zero => intro pool g; rfl
  | succ n ih => intro pool g; simp [sample_aux, ih]

/-- Every record returned by the sample core comes from the pool, provided
the requested size fits the population. -/
theorem sample_aux_mem :
    ∀ (k : Nat) (pool : List Vulnerability) (g : Rng), k ≤ pool.length →
      ∀ v ∈ (sample_aux pool k g).1, v ∈ pool := by
  intro k
  induction k with
  | zero => intro pool g _ v hv; simp [sample_aux] at hv
  | succ n ih =>
    intro pool g hk v hv
    have hpos : 0 < pool.length := by omega
    have hi : g.head % pool.length < pool.length := Nat.mod_lt _ hpos
    simp only [sample_aux, List.mem_cons] at hv
    rcases hv with hv | hv
    · subst hv
      rw [List.getD_eq_getElem pool default hi]
      exact List.getElem_mem hi
    · have hlen : n ≤ (pool.eraseIdx (g.head % pool.length)).length := by
        rw [List.length_eraseIdx_of_lt hi]
        omega
      exact (List.eraseIdx_sublist pool (g.head % pool.length)).mem
        (ih _ _ hlen v hv)

/-- The main AFTER-generation branch always succeeds when both ratios are
at most one: the clamped bounds stay within the population, so the sample
never raises. -/
theorem generate_after_from_before_isSome (db1 : Db) (e : PatchEvent)
    (bv : List Vulnerability) (minR maxR : ℚ) (g : Rng)
    (hne : bv ≠ []) (hmin : minR ≤ 1) (hmax : maxR ≤ 1) :
    (generate_after_from_before db1 e bv minR maxR g).isSome = true := by
  have htot : 1 ≤ bv.length := List.length_pos.mpr hne
  have ht1 : trunc_mul bv.length minR ≤ (bv.length : Int) :=
    trunc_mul_le_of_le_one _ _ hmin
  have ht2 : trunc_mul bv.length maxR ≤ (bv.length : Int) :=
    trunc_mul_le_of_le_one _ _ hmax
  have h1 : max 1 (trunc_mul bv.length minR) ≤ (bv.length : Int) :=
    max_le (by exact_mod_cast htot) ht1
  have h2 : max (max 1 (trunc_mul bv.length minR))
      (trunc_mul bv.length maxR) ≤ (bv.length : Int) :=
    max_le h1 ht2
  obtain ⟨-, hb2⟩ := randint_bounds (max 1 (trunc_mul bv.length minR))
    (max (max 1 (trunc_mul bv.length minR)) (trunc_mul bv.length maxR)) g
    (le_max_left _ _)
  have hk : ¬ (bv.length < (randint (max 1 (trunc_mul bv.length minR))
      (max (max 1 (trunc_mul bv.length minR)) (trunc_mul bv.length maxR))
      g).1.toNat) := by
    omega
  simp only [generate_after_from_before]
  rw [sample_eq_some _ _ _ hk]
  rfl

/-- C6 (amended): with both ratios at most one (negative values allowed),
AFTER generation always completes: the clamps keep the bounds inside the
population.  The counterexample shows a ratio above one makes
random.sample raise, so the unrestricted claim fails. -/
theorem c6_clamped_generation_amended (db : Db) (e : PatchEvent)
    (minR maxR : ℚ) (g : Rng) (hmin : minR ≤ 1) (hmax : maxR ≤ 1) :
    (generate_after_snapshot db e minR maxR g).isSome = true ∧
    (∀ total : Nat, 1 ≤ max 1 (trunc_mul total minR) ∧
      max 1 (trunc_mul total minR) ≤
        max (max 1 (trunc_mul total minR)) (trunc_mul total maxR)) := by
  refine ⟨?_, fun total => ⟨le_max_left _ _, le_max_left _ _⟩⟩
  simp only [generate_after_snapshot]
  cases hfind : find_before_snapshot
      (delete_existing_snapshots db e.id SnapshotType.AFTER) e.id with
  | none => rfl
  | some bs =>
    by_cases hemp : bs.vulnerabilities.isEmpty
    · simp [hemp]
    · have hne : bs.vulnerabilities ≠ [] := by
        simpa [List.isEmpty_iff] using hemp
      rw [Bool.not_eq_true] at hemp
      simp only [hemp, Bool.false_eq_true, if_false]
      exact generate_after_from_before_isSome _ _ _ _ _ _ hne hmin hmax

/-- A concrete BEFORE snapshot holding one vulnerability for event 1. -/
def ex_before_snapshot : ScanSnapshot :=
  { id := 1, patch_event_id := 1, snapshot_type := SnapshotType.BEFORE,
    vulnerabilities := [ex_vuln] }

/-- A concrete database holding only that BEFORE snapshot. -/
def ex_db : Db :=
  { snapshots := [ex_before_snapshot], next_id := 2 }

/-- C6 counterexample: with a max ratio of 2 on a 1-vulnerability BEFORE
snapshot, the drawn remaining count can exceed the population and
random.sample raises, so generation does not always complete. -/
theorem c6_ratio_above_one_raises :
    generate_after_snapshot ex_db ex_event_no_evidence 0 2 (Rng.mk [1]) =
      none := by
  simp only [generate_after_snapshot]
  rw [show delete_existing_snapshots ex_db ex_event_no_evidence.id
      SnapshotType.AFTER = ex_db from by decide]
  rw [show find_before_snapshot ex_db ex_event_no_evidence.id =
      some ex_before_snapshot from by decide]
  simp only [show ex_before_snapshot.vulnerabilities = [ex_vuln] from rfl,
    List.isEmpty_cons, Bool.false_eq_true, if_false]
  simp only [generate_after_from_before]
  rw [show trunc_mul [ex_vuln].length 0 = 0 from by norm_num [trunc_mul]]
  rw [show trunc_mul [ex_vuln].length 2 = 2 from by norm_num [trunc_mul]]
  decide

/-- Witness for the amended C6 theorem: a negative min ratio and a
fractional max ratio on the concrete database. -/
theorem c6_clamped_generation_amended_witness :
    ((-1 : ℚ) ≤ 1 ∧ (1/2 : ℚ) ≤ 1) ∧
    ((generate_after_snapshot ex_db ex_event_no_evidence (-1) (1/2)
        (Rng.mk [0])).isSome = true ∧
      (∀ total : Nat, 1 ≤ max 1 (trunc_mul total (-1)) ∧
        max 1 (trunc_mul total (-1)) ≤
          max (max 1 (trunc_mul total (-1))) (trunc_mul total (1/2)))) :=
  ⟨⟨by norm_num, by norm_num⟩,
    c6_clamped_generation_amended ex_db ex_event_no_evidence (-1) (1/2)
      (Rng.mk [0]) (by norm_num) (by norm_num)⟩

/-- C4: on a 20-vulnerability BEFORE snapshot with ratios 3/10 and 7/10,
AFTER generation always succeeds, the AFTER count lies in the inclusive
range 6..14 for every outcome of the random draws, and every AFTER record
is a verbatim field-for-field copy of some BEFORE record (in particular
its synthetic_id occurs among the BEFORE ids). -/
theorem c4_after_snapshot_from_twenty_before (db : Db) (e : PatchEvent)
    (g : Rng) (bs : ScanSnapshot)
    (hfind : find_before_snapshot
      (delete_existing_snapshots db e.id SnapshotType.AFTER) e.id = some bs)
    (hlen : bs.vulnerabilities.length = 20) :
    ∃ db2 snap g2,
      generate_after_snapshot db e (3/10) (7/10) g = some (db2, snap, g2) ∧
      6 ≤ snap.vulnerabilities.length ∧ snap.vulnerabilities.length ≤ 14 ∧
      (∀ v ∈ snap.vulnerabilities,
        v.synthetic_id ∈ bs.vulnerabilities.map (fun b => b.synthetic_id)) ∧
      (∀ v ∈ snap.vulnerabilities, ∃ b ∈ bs.vulnerabilities,
        v.synthetic_id = b.synthetic_id ∧ v.cve = b.cve ∧
        v.plugin_id = b.plugin_id ∧ v.severity = b.severity ∧
        v.host = b.host ∧ v.description = b.description) := by
  have hemp : bs.vulnerabilities.isEmpty = false := by
    cases h : bs.vulnerabilities.isEmpty with
    | false => rfl
    | true =>
      rw [List.isEmpty_iff] at h
      rw [h] at hlen
      simp at hlen
  obtain ⟨hb1, hb2⟩ := randint_bounds 6 14 g (by norm_num)
  have hk : ¬ (bs.vulnerabilities.length < (randint 6 14 g).1.toNat) := by
    rw [hlen]
    omega
  simp only [generate_after_snapshot]
  rw [hfind]
  simp only [hemp, Bool.false_eq_true, if_false]
  simp only [generate_after_from_before, hlen]
  rw [show trunc_mul 20 (3/10) = 6 from by norm_num [trunc_mul]]
  rw [show trunc_mul 20 (7/10) = 14 from by norm_num [trunc_mul]]
  rw [show (max 1 6 : Int) = 6 from by norm_num]
  rw [show (max 6 14 : Int) = 14 from by norm_num]
  rw [sample_eq_some _ _ _ hk]
  have hmemlen : (randint 6 14 g).1.toNat ≤ bs.vulnerabilities.length := by
    rw [hlen]
    omega
  refine ⟨_, _, _, rfl, ?_, ?_, ?_, ?_⟩
  · simp [sample_aux_length]
    omega
  · simp [sample_aux_length]
    omega
  · intro v hv
    simp only [List.mem_map] at hv
    obtain ⟨b, hb, rfl⟩ := hv
    have hbmem := sample_aux_mem _ _ _ hmemlen b hb
    exact List.mem_map.mpr ⟨b, hbmem, rfl⟩
  · intro v hv
    simp only [List.mem_map] at hv
    obtain ⟨b, hb, rfl⟩ := hv
    have hbmem := sample_aux_mem _ _ _ hmemlen b hb
    exact ⟨b, hbmem, rfl, rfl, rfl, rfl, rfl, rfl⟩

/-- Twenty concrete BEFORE vulnerabilities with distinct synthetic ids. -/
def ex_before_vulns_twenty : List Vulnerability :=
  (List.range 20).map (fun i =>
    { ex_vuln with synthetic_id := "VULN-0001-" ++ zfill 4 (i + 1) })

/-- A concrete BEFORE snapshot holding the twenty vulnerabilities. -/
def ex_before_snapshot_twenty : ScanSnapshot :=
  { id := 1, patch_event_id := 1, snapshot_type := SnapshotType.BEFORE,
    vulnerabilities := ex_before_vulns_twenty }

/-- A concrete database holding only that snapshot. -/
def ex_db_twenty : Db :=
  { snapshots := [ex_before_snapshot_twenty], next_id := 2 }

/-- Witness for C4 on the concrete 20-vulnerability database. -/
theorem c4_after_snapshot_from_twenty_before_witness :
    (find_before_snapshot
        (delete_existing_snapshots ex_db_twenty ex_event_no_evidence.id
          SnapshotType.AFTER) ex_event_no_evidence.id =
        some ex_before_snapshot_twenty ∧
      ex_before_snapshot_twenty.vulnerabilities.length = 20) ∧
    (∃ db2 snap g2,
      generate_after_snapshot ex_db_twenty ex_event_no_evidence (3/10) (7/10)
          (Rng.mk [0]) = some (db2, snap, g2) ∧
      6 ≤ snap.vulnerabilities.length ∧ snap.vulnerabilities.length ≤ 14 ∧
      (∀ v ∈ snap.vulnerabilities,
        v.synthetic_id ∈ ex_before_snapshot_twenty.vulnerabilities.map
          (fun b => b.synthetic_id)) ∧
      (∀ v ∈ snap.vulnerabilities,
        ∃ b ∈ ex_before_snapshot_twenty.vulnerabilities,
          v.synthetic_id = b.synthetic_id ∧ v.cve = b.cve ∧
          v.plugin_id = b.plugin_id ∧ v.severity = b.severity ∧
          v.host = b.host ∧ v.description = b.description)) :=
  ⟨⟨by decide, by decide⟩,
    c4_after_snapshot_from_twenty_before ex_db_twenty ex_event_no_evidence
      (Rng.mk [0]) ex_before_snapshot_twenty (by decide) (by decide)⟩
